import Mathlib

/-!
Shallow embedding of the GanesaEseva2 backend (Express + Mongoose CRUD
service) and verification of the frozen claims about it.

Conventions of the embedding:
  - Request bodies are records of `Option` fields; `none` is a JSON key that
    is absent (undefined), `some ""` is a key present with the empty string.
  - JavaScript string truthiness is `truthy`: absent and `""` are falsy.
  - The document store is a record of lists, one per collection, passed and
    returned explicitly by every handler.
  - Mongoose ObjectId casting is modelled by `isValidObjectId` (24 hex
    characters); `findById` on a malformed id throws a CastError, which every
    handler catch block maps to a 500 response.
  - String operations that the source applies (trim, toLowerCase, split) are
    defined over `String.data` so that all proofs reduce by computation.
-/

namespace GanesaEseva

/-! ## JavaScript string and truthiness helpers -/

/-- Truthiness of an optional JS string: `undefined` and `""` are falsy. -/
def truthy : Option String → Bool
  | none => false
  | some s => !s.data.isEmpty

/-- Model of JS `x || ""` for an optional string. -/
def orEmpty : Option String → String
  | none => ""
  | some s => s

/-- Whitespace recognizer used by trim (space, tab, newline, carriage return). -/
def isWs (c : Char) : Bool :=
  c = ' ' || c = '\t' || c = '\n' || c = '\r'

/-- Model of JS `String.prototype.trim` (and of the mongoose `trim: true`
setter), defined over the character list so proofs compute. -/
def trimStr (s : String) : String :=
  ⟨((s.data.dropWhile isWs).reverse.dropWhile isWs).reverse⟩

/-- Lower-casing for case-insensitive matching. -/
def lowerStr (s : String) : String :=
  ⟨s.data.map Char.toLower⟩

/-- Infix test on character lists (computable, structural). -/
def listInfix [BEq α] : List α → List α → Bool
  | xs, [] => xs.isEmpty
  | xs, y :: ys => xs.isPrefixOf (y :: ys) || listInfix xs ys

/-- Case-insensitive substring test: model of the `$regex ... $options: "i"`
queries of the customer search for literal (metacharacter-free) patterns. -/
def containsCI (hay q : String) : Bool :=
  listInfix (lowerStr q).data (lowerStr hay).data

/-- Hexadecimal digit recognizer. -/
def isHexChar (c : Char) : Bool :=
  c.isDigit || (97 ≤ c.toNat && c.toNat ≤ 102) || (65 ≤ c.toNat && c.toNat ≤ 70)

/-- Model of `mongoose.Types.ObjectId` validity for string ids: 24 hex
characters. `findById` on a string failing this throws a CastError. -/
def isValidObjectId (s : String) : Bool :=
  s.data.length == 24 && s.data.all isHexChar

/-- Model of JS `h.split(" ")[1]` returning `undefined` when there is no
second piece. -/
def splitSpaceAux : List Char → List Char → List (List Char)
  | [], acc => [acc.reverse]
  | c :: cs, acc =>
    if c = ' ' then acc.reverse :: splitSpaceAux cs []
    else splitSpaceAux cs (c :: acc)

/-- Pieces of a string split on single spaces, as in JS `split(" ")`. -/
def splitSpace (s : String) : List String :=
  (splitSpaceAux s.data []).map (fun l => ⟨l⟩)

/-- Second piece of a space-split, `none` when absent. -/
def secondPiece (s : String) : Option String :=
  match (splitSpace s).drop 1 with
  | [] => none
  | t :: _ => some t

/-- Prefix test on strings via their character lists. -/
def strStartsWith (s p : String) : Bool :=
  p.data.isPrefixOf s.data

/-! ## Field definitions and the route-level field validation loop

Source: src/routes/forms.js, the identical loops at lines 201-216 (subcategory
create) and 293-308 (subcategory update). -/

/-- Candidate field definition as it arrives in a request body. -/
structure FieldDef where
  name : Option String
  fieldType : Option String
  options : Option (List String)
  required : Bool
deriving Repr, DecidableEq

/-- Violations the route-level loop can report (each is a 400 response). -/
inductive FieldError where
  /-- Message "Field name and type are required for all fields". -/
  | nameTypeRequired
  /-- Message "Options are required for field type: ..." with the type. -/
  | optionsRequired (fieldType : String)
deriving Repr, DecidableEq

/-- Field types that require an options list, from the source literal
`["select", "radio", "checkbox"]`. -/
def choiceTypes : List String := ["select", "radio", "checkbox"]

/-- The seven field types enumerated by the storage schema
(src/unnamed/part_001 line 30). -/
def enumFieldTypes : List String :=
  ["text", "number", "date", "select", "checkbox", "radio", "textarea"]

/-- One iteration of the route-level validation loop: checks truthiness of
`name` and `fieldType`, then a non-empty options list for choice types.
Mirrors forms.js lines 201-216. -/
def validateField (f : FieldDef) : Option FieldError :=
  if !truthy f.name || !truthy f.fieldType then
    some .nameTypeRequired
  else if choiceTypes.contains (f.fieldType.getD "") &&
      (match f.options with
       | none => true
       | some l => l.isEmpty) then
    some (.optionsRequired (f.fieldType.getD ""))
  else
    none

/-- The whole loop: first violation in input order, `none` when all pass. -/
def firstFieldError : List FieldDef → Option FieldError
  | [] => none
  | f :: fs =>
    match validateField f with
    | some e => some e
    | none => firstFieldError fs

/-- Acceptance condition of the Field Schema Validator as the claim words it
(refinement reference, not the source): name non-empty after trimming,
fieldType among the seven enumerated values, and a non-empty options list for
choice types. -/
def specFieldOk (f : FieldDef) : Bool :=
  !(trimStr (f.name.getD "")).data.isEmpty
  && enumFieldTypes.contains (f.fieldType.getD "")
  && (!(choiceTypes.contains (f.fieldType.getD ""))
      || !(f.options.getD []).isEmpty)

/-! ## Entities and the document store

One structure per collection, fields translated from the mongoose schemas:
FormCategory (src/test-esm.js second document), FormSubCategory
(src/unnamed/part_001), Form (src/unnamed/part_002), MessageTemplate
(src/models/MessageTemplate.js). The Customer model file is not in the
sources, so `Customer` is modelled from the spec (section 3). Timestamps are
naturals. -/

/-- FormCategory document (schema in src/test-esm.js, `timestamps: true`). -/
structure Category where
  id : String
  name : String
  description : String
  isActive : Bool
  createdBy : String
  updatedBy : Option String
  createdAt : Nat
  updatedAt : Nat
deriving Repr, DecidableEq

/-- Embedded field document of a FormSubCategory after mongoose casting:
`name` and the option strings have had the `trim` setter applied, `fieldType`
has no setter. `none` means the path is undefined. -/
structure SubcatField where
  name : Option String
  fieldType : Option String
  options : List String
  required : Bool
deriving Repr, DecidableEq

/-- FormSubCategory document (schema in src/unnamed/part_001,
`timestamps: true`, compound unique index on (name, categoryId)). -/
structure Subcategory where
  id : String
  name : String
  categoryId : String
  description : String
  isActive : Bool
  fields : List SubcatField
  createdBy : String
  updatedBy : Option String
  createdAt : Nat
  updatedAt : Nat
deriving Repr, DecidableEq

/-- Form document (schema in src/unnamed/part_002, unique name and url,
pre-save and pre-findOneAndUpdate hooks refresh updatedAt). -/
structure Form where
  id : String
  name : String
  url : String
  createdAt : Nat
  updatedAt : Nat
deriving Repr, DecidableEq

/-- MessageTemplate document (schema in src/models/MessageTemplate.js; only a
pre-save hook refreshes updatedAt, there is no findOneAndUpdate hook and the
schema does not enable the timestamps option). -/
structure Template where
  id : String
  name : String
  subject : String
  content : String
  ttype : String
  createdAt : Nat
  updatedAt : Nat
deriving Repr, DecidableEq

/-- Allowed message template types (enum in MessageTemplate.js line 21). -/
def templateTypes : List String := ["ALERT", "NOTIFICATION", "PROMOTIONAL"]

/-- Modelled from the spec: the Customer model file (models/Customer.js) is
not among the sources; section 3 of the spec gives
name, phone, email, an address with line1, city and state, and an optional
serviceCategoryUrl. `serviceCategoryUrl = some ""` is the field present and
holding the empty string, `none` is the field absent from the record. -/
structure Customer where
  id : String
  name : String
  phone : String
  email : String
  addressLine1 : String
  addressCity : String
  addressState : String
  serviceCategoryUrl : Option String
  createdAt : Nat
deriving Repr, DecidableEq

/-- The document store: one list per collection, in insertion order. -/
structure DB where
  categories : List Category
  subcategories : List Subcategory
  forms : List Form
  customers : List Customer
  templates : List Template
deriving Repr, DecidableEq

/-- Lookup by id, as `Model.findById` once the id has passed ObjectId
casting. -/
def findDocById (l : List α) (getId : α → String) (id : String) : Option α :=
  l.find? (fun x => getId x == id)

/-! ## Access Guard (src/middleware/auth.js)

The `protect` middleware. Token verification (`jwt.verify`) and the User
model are external collaborators (spec section 1 treats authentication as a
black box that maps a credential to a user identity or a rejection), so
verification is a function parameter and the user record is modelled from the
spec. -/

/-- Decoded JWT payload: the user id and the issued-at time. -/
structure JwtPayload where
  userId : String
  iat : Nat

/-- Modelled from the spec: the User model (models/User.js) is not among the
sources; the Access Guard resolves a credential to a user principal. The
`passwordChangedAt` field backs the `changedPasswordAfter` check that
auth.js calls on the user document. -/
structure AuthUser where
  id : String
  email : String
  passwordChangedAt : Option Nat

/-- Modelled from the spec: `user.changedPasswordAfter(iat)` is true when the
password changed after the token was issued. -/
def changedPasswordAfter (u : AuthUser) (iat : Nat) : Bool :=
  match u.passwordChangedAt with
  | some t => iat < t
  | none => false

/-- Authentication context: the user store and the black-box token verifier
(`jwt.verify` returning a decoded payload, or nothing for an invalid token). -/
structure AuthCtx where
  users : List AuthUser
  verify : String → Option JwtPayload

/-- Credentials carried by a request: the Authorization header and the token
cookie. -/
structure ReqCreds where
  authorizationHeader : Option String
  cookieToken : Option String

/-- Token extraction of auth.js lines 10-25: a header starting with "Bearer"
yields its second space-separated piece, otherwise the cookie is used; a
missing or empty token is rejected (the `if (!token)` check). -/
def extractToken (c : ReqCreds) : Option String :=
  let tok : Option String :=
    match c.authorizationHeader with
    | some h => if strStartsWith h "Bearer" then secondPiece h else c.cookieToken
    | none => c.cookieToken
  match tok with
  | none => none
  | some t => if t.data.isEmpty then none else some t

/-- The `protect` middleware (auth.js lines 5-66): `none` is a 401 rejection,
`some u` grants access with `req.user = u`. -/
def protect (ctx : AuthCtx) (c : ReqCreds) : Option AuthUser :=
  match extractToken c with
  | none => none
  | some tok =>
    match ctx.verify tok with
    | none => none
    | some payload =>
      match findDocById ctx.users (fun u => u.id) payload.userId with
      | none => none
      | some u => if changedPasswordAfter u payload.iat then none else some u

/-- Result of a route that sits behind `protect`: `unauthorized` is the 401
short-circuit, `ok` carries the handler result. -/
inductive Guarded (α : Type) where
  | unauthorized
  | ok (r : α)
deriving Repr, DecidableEq

/-- Status code of a guarded result, given the status map of the handler. -/
def Guarded.status (f : α → Nat) : Guarded α → Nat
  | .unauthorized => 401
  | .ok r => f r

/-- Wiring of `router.method(path, protect, handler)`: the handler runs only
when `protect` grants access, otherwise the store is untouched and the
response is 401. -/
def guarded (ctx : AuthCtx) (creds : ReqCreds) (db : DB)
    (h : AuthUser → DB × α) : DB × Guarded α :=
  match protect ctx creds with
  | none => (db, .unauthorized)
  | some u =>
    let (db', r) := h u
    (db', .ok r)

/-! ## Form Taxonomy Store: categories (forms.js lines 370-522)

The form-categories router module requires express, express-validator, the
auth middleware and FormCategory (lines 371-374) and nothing else. Its delete
handler (lines 496-520) evaluates the identifier `FormSubCategory`, which is
not bound in that module; in JavaScript evaluating an unbound identifier
throws a ReferenceError, which the surrounding catch maps to a 500 response.
The import list is reproduced here so that the dead and live branches of the
handler are exactly those of the source. -/

/-- Names bound at the top of the form-categories module (lines 371-374). -/
def formCategoriesModuleImports : List String :=
  ["express", "router", "check", "validationResult", "auth", "FormCategory"]

/-- Request body for category create and update. -/
structure CatBody where
  name : Option String
  description : Option String
  isActive : Option Bool
deriving Repr

/-- Save-time validity of a category document: required trimmed name and a
castable createdBy ObjectId (schema in src/test-esm.js). -/
def catSchemaValid (c : Category) : Bool :=
  !c.name.data.isEmpty && isValidObjectId c.createdBy

/-- Replace the category with the same id. -/
def replaceCategory (db : DB) (c : Category) : DB :=
  { db with categories := db.categories.map (fun x => if x.id == c.id then c else x) }

/-- Result of POST form-categories. -/
inductive CatCreateRes where
  | precheckFailed
  | duplicate
  | created (c : Category)
  | serverError
deriving Repr, DecidableEq

/-- Status codes of POST form-categories (forms.js lines 395-433). -/
def CatCreateRes.statusCode : CatCreateRes → Nat
  | .precheckFailed => 400
  | .duplicate => 400
  | .created _ => 200
  | .serverError => 500

/-- POST form-categories handler (forms.js lines 395-433): express-validator
requires a non-empty name, then an exact findOne on the raw name rejects
duplicates, then the document is saved with createdBy set to the caller.
Save applies the trim setter, validates required paths, and enforces the
unique name index (a violation surfaces as a 500 through the catch). -/
def createCategoryCore (u : AuthUser) (b : CatBody) (freshId : String)
    (now : Nat) (db : DB) : DB × CatCreateRes :=
  if !truthy b.name then (db, .precheckFailed)
  else
    let name := b.name.getD ""
    if db.categories.any (fun c => c.name == name) then (db, .duplicate)
    else
      let doc : Category :=
        { id := freshId, name := trimStr name
        , description := trimStr (orEmpty b.description)
        , isActive := true, createdBy := u.id, updatedBy := none
        , createdAt := now, updatedAt := now }
      if catSchemaValid doc && !(db.categories.any (fun c => c.name == doc.name)) then
        ({ db with categories := db.categories ++ [doc] }, .created doc)
      else (db, .serverError)

/-- Result of PUT form-categories. -/
inductive CatUpdateRes where
  | precheckFailed
  | notFound
  | duplicate
  | updated (c : Category)
  | serverError
deriving Repr, DecidableEq

/-- Status codes of PUT form-categories (forms.js lines 438-491). -/
def CatUpdateRes.statusCode : CatUpdateRes → Nat
  | .precheckFailed => 400
  | .notFound => 404
  | .duplicate => 400
  | .updated _ => 200
  | .serverError => 500

/-- PUT form-categories handler (forms.js lines 438-491): non-empty-name
precheck; findById (a malformed id throws a CastError mapped to 500); 404
when absent; when the name changes, an exact findOne on the raw name rejects
collisions; then findByIdAndUpdate applies a $set of name and updatedBy plus
description and isActive when provided. Update validators are not enabled,
setters (trim) and the timestamps option (updatedAt refresh) do apply, and a
unique-index violation surfaces as a 500. -/
def updateCategoryCore (u : AuthUser) (id : String) (b : CatBody)
    (now : Nat) (db : DB) : DB × CatUpdateRes :=
  if !truthy b.name then (db, .precheckFailed)
  else if !isValidObjectId id then (db, .serverError)
  else
    match findDocById db.categories (fun c => c.id) id with
    | none => (db, .notFound)
    | some cat =>
      let name := b.name.getD ""
      if name != cat.name && db.categories.any (fun c => c.name == name) then
        (db, .duplicate)
      else
        let c' : Category :=
          { cat with
            name := trimStr name,
            description := (match b.description with
              | some d => trimStr d
              | none => cat.description),
            isActive := b.isActive.getD cat.isActive,
            updatedBy := some u.id,
            updatedAt := now }
        if db.categories.any (fun c => c.id != id && c.name == c'.name) then
          (db, .serverError)
        else (replaceCategory db c', .updated c')

/-- Result of DELETE form-categories. -/
inductive CatDeleteRes where
  | notFound
  | hasDependents
  | removed
  | serverError
deriving Repr, DecidableEq

/-- Status codes of DELETE form-categories (forms.js lines 496-520). -/
def CatDeleteRes.statusCode : CatDeleteRes → Nat
  | .notFound => 404
  | .hasDependents => 400
  | .removed => 200
  | .serverError => 500

/-- DELETE form-categories handler (forms.js lines 496-520): findById (a
malformed id throws a CastError mapped to 500 by the catch, which has no
ObjectId special case); 404 when absent; then line 505 evaluates
`FormSubCategory.find`, but `FormSubCategory` is not among the module
imports (lines 371-374), so the evaluation throws a ReferenceError and the
catch answers 500. The dependent check and the removal (lines 506-515) are
reproduced under the import-membership test and are dead branches, exactly as
in the source. -/
def deleteCategoryCore (id : String) (db : DB) : DB × CatDeleteRes :=
  if !isValidObjectId id then (db, .serverError)
  else
    match findDocById db.categories (fun c => c.id) id with
    | none => (db, .notFound)
    | some _ =>
      if formCategoriesModuleImports.contains "FormSubCategory" then
        if !(db.subcategories.filter (fun s => s.categoryId == id)).isEmpty then
          (db, .hasDependents)
        else
          ({ db with categories := db.categories.filter (fun c => c.id != id) }, .removed)
      else (db, .serverError)

/-! ## Form Taxonomy Store: subcategories (forms.js lines 104-369) -/

/-- Request body for subcategory create and update. -/
structure SubcatBody where
  name : Option String
  categoryId : Option String
  description : Option String
  fields : Option (List FieldDef)
  isActive : Option Bool
deriving Repr

/-- The express-validator prechecks shared by subcategory create and update
(forms.js lines 168-171 and 251-254): non-empty name, non-empty categoryId,
fields present as an array. -/
def subcatPrecheckOk (b : SubcatBody) : Bool :=
  truthy b.name && truthy b.categoryId && b.fields.isSome

/-- Mongoose casting of a request field definition into the embedded
document: the trim setter applies to the name and to each option string,
fieldType has no setter. -/
def castField (f : FieldDef) : SubcatField :=
  { name := f.name.map trimStr
  , fieldType := f.fieldType
  , options := (f.options.getD []).map trimStr
  , required := f.required }

/-- Save-time validity of one embedded field (schema part_001 lines 22-41):
name required (fails when undefined or empty after trim), fieldType required
and in the seven-value enum. -/
def fieldSchemaValid (f : SubcatField) : Bool :=
  (match f.name with
   | some n => !n.data.isEmpty
   | none => false)
  && (match f.fieldType with
      | some t => enumFieldTypes.contains t
      | none => false)

/-- Save-time validity of a subcategory document (schema part_001): required
trimmed name, castable required categoryId and createdBy, valid embedded
fields. -/
def subcatSchemaValid (s : Subcategory) : Bool :=
  !s.name.data.isEmpty && isValidObjectId s.categoryId
  && isValidObjectId s.createdBy && s.fields.all fieldSchemaValid

/-- Document built by the create handler (forms.js lines 219-225) after
casting: description defaulted with `|| ""`, isActive by schema default,
createdBy from the authenticated user, timestamps from the save time. -/
def mkSubcatDoc (u : AuthUser) (b : SubcatBody) (freshId : String)
    (now : Nat) : Subcategory :=
  { id := freshId
  , name := trimStr (b.name.getD "")
  , categoryId := b.categoryId.getD ""
  , description := trimStr (orEmpty b.description)
  , isActive := true
  , fields := (b.fields.getD []).map castField
  , createdBy := u.id
  , updatedBy := none
  , createdAt := now
  , updatedAt := now }

/-- Save of a new subcategory: schema validation, then the compound unique
(name, categoryId) index; either failure throws and the route catch answers
500. -/
def saveSubcategory (db : DB) (s : Subcategory) : Except Unit DB :=
  if !subcatSchemaValid s then .error ()
  else if db.subcategories.any (fun t => t.name == s.name && t.categoryId == s.categoryId) then
    .error ()
  else .ok { db with subcategories := db.subcategories ++ [s] }

/-- Replace the subcategory with the same id. -/
def replaceSubcategory (db : DB) (s : Subcategory) : DB :=
  { db with subcategories := db.subcategories.map (fun x => if x.id == s.id then s else x) }

/-- Result of POST form-subcategories. -/
inductive SubcatCreateRes where
  | precheckFailed
  | categoryNotFound
  | duplicateName
  | fieldInvalid (e : FieldError)
  | created (s : Subcategory)
  | serverError
deriving Repr, DecidableEq

/-- Status codes of POST form-subcategories (forms.js lines 163-241). -/
def SubcatCreateRes.statusCode : SubcatCreateRes → Nat
  | .precheckFailed => 400
  | .categoryNotFound => 404
  | .duplicateName => 400
  | .fieldInvalid _ => 400
  | .created _ => 200
  | .serverError => 500

/-- POST form-subcategories handler (forms.js lines 163-241): express-validator
prechecks; findById on the category (a malformed categoryId throws a
CastError mapped to 500); 404 when the category is absent; findOne on the raw
(name, categoryId) pair rejects duplicates; the route-level field loop
reports its first violation; then the document is saved (schema validation
plus unique index, failures mapped to 500 by the catch). -/
def createSubcategoryCore (u : AuthUser) (b : SubcatBody) (freshId : String)
    (now : Nat) (db : DB) : DB × SubcatCreateRes :=
  if !subcatPrecheckOk b then (db, .precheckFailed)
  else
    let name := b.name.getD ""
    let catId := b.categoryId.getD ""
    if !isValidObjectId catId then (db, .serverError)
    else
      match findDocById db.categories (fun c => c.id) catId with
      | none => (db, .categoryNotFound)
      | some _ =>
        if db.subcategories.any (fun s => s.name == name && s.categoryId == catId) then
          (db, .duplicateName)
        else
          match firstFieldError (b.fields.getD []) with
          | some e => (db, .fieldInvalid e)
          | none =>
            match saveSubcategory db (mkSubcatDoc u b freshId now) with
            | .ok db' => (db', .created (mkSubcatDoc u b freshId now))
            | .error _ => (db, .serverError)

/-- Result of PUT form-subcategories. -/
inductive SubcatUpdateRes where
  | precheckFailed
  | notFound
  | categoryNotFound
  | duplicateName
  | fieldInvalid (e : FieldError)
  | updated (s : Subcategory)
  | serverError
deriving Repr, DecidableEq

/-- Status codes of PUT form-subcategories (forms.js lines 246-335). -/
def SubcatUpdateRes.statusCode : SubcatUpdateRes → Nat
  | .precheckFailed => 400
  | .notFound => 404
  | .categoryNotFound => 404
  | .duplicateName => 400
  | .fieldInvalid _ => 400
  | .updated _ => 200
  | .serverError => 500

/-- PUT form-subcategories handler (forms.js lines 246-335): the same
prechecks; findById on the subcategory and then on the target category
(malformed ids throw CastErrors mapped to 500 by the catch, which has no
ObjectId special case); when name or category changes, a findOne excluding
the current id rejects duplicates; the route-level field loop runs; then
findByIdAndUpdate applies a $set of name, categoryId, fields and updatedBy
plus description and isActive when provided. Update validators are NOT
enabled (no runValidators option), so the embedded fields are stored after
casting without schema validation; setters (trim) and the timestamps option
(updatedAt refresh) do apply, and a unique-index violation surfaces as 500. -/
def updateSubcategoryCore (u : AuthUser) (id : String) (b : SubcatBody)
    (now : Nat) (db : DB) : DB × SubcatUpdateRes :=
  if !subcatPrecheckOk b then (db, .precheckFailed)
  else if !isValidObjectId id then (db, .serverError)
  else
    match findDocById db.subcategories (fun s => s.id) id with
    | none => (db, .notFound)
    | some s0 =>
      let name := b.name.getD ""
      let catId := b.categoryId.getD ""
      if !isValidObjectId catId then (db, .serverError)
      else
        match findDocById db.categories (fun c => c.id) catId with
        | none => (db, .categoryNotFound)
        | some _ =>
          if (name != s0.name || catId != s0.categoryId)
              && db.subcategories.any
                  (fun s => s.name == name && s.categoryId == catId && s.id != id) then
            (db, .duplicateName)
          else
            match firstFieldError (b.fields.getD []) with
            | some e => (db, .fieldInvalid e)
            | none =>
              let s1 : Subcategory :=
                { s0 with
                  name := trimStr name,
                  categoryId := catId,
                  fields := (b.fields.getD []).map castField,
                  description := (match b.description with
                    | some d => trimStr d
                    | none => s0.description),
                  isActive := b.isActive.getD s0.isActive,
                  updatedBy := some u.id,
                  updatedAt := now }
              if db.subcategories.any
                  (fun s => s.id != id && s.name == s1.name && s.categoryId == s1.categoryId) then
                (db, .serverError)
              else (replaceSubcategory db s1, .updated s1)

/-- Result of DELETE form-subcategories. -/
inductive SubcatDeleteRes where
  | notFound
  | removed
  | serverError
deriving Repr, DecidableEq

/-- Status codes of DELETE form-subcategories (forms.js lines 340-367). -/
def SubcatDeleteRes.statusCode : SubcatDeleteRes → Nat
  | .notFound => 404
  | .removed => 200
  | .serverError => 500

/-- DELETE form-subcategories handler (forms.js lines 340-367): findById (the
catch maps a CastError to 404 through its ObjectId kind test, lines 362-364);
404 when absent; the dependent-forms check is commented out in the source, so
the delete is unconditional. -/
def deleteSubcategoryCore (id : String) (db : DB) : DB × SubcatDeleteRes :=
  if !isValidObjectId id then (db, .notFound)
  else
    match findDocById db.subcategories (fun s => s.id) id with
    | none => (db, .notFound)
    | some _ =>
      ({ db with subcategories := db.subcategories.filter (fun s => s.id != id) }, .removed)

/-! ## Form Instance Registry (forms.js lines 1-103) -/

/-- Request body of POST forms: an id switches the handler to its update
path. -/
structure FormBody where
  id : Option String
  name : Option String
  url : Option String
deriving Repr

/-- Save-time validity of a form document: required trimmed name and url. -/
def formSchemaValid (f : Form) : Bool :=
  !f.name.data.isEmpty && !f.url.data.isEmpty

/-- Replace the form with the same id. -/
def replaceForm (db : DB) (f : Form) : DB :=
  { db with forms := db.forms.map (fun x => if x.id == f.id then f else x) }

/-- Result of POST forms. -/
inductive FormsPostRes where
  | notFound
  | duplicate
  | saved (f : Form)
  | serverError
deriving Repr, DecidableEq

/-- Status codes of POST forms (forms.js lines 24-82). -/
def FormsPostRes.statusCode : FormsPostRes → Nat
  | .notFound => 404
  | .duplicate => 400
  | .saved _ => 200
  | .serverError => 500

/-- POST forms handler (forms.js lines 24-82). The express-validator checks
declared in the middleware array are never consumed (the handler does not
call validationResult), so no precheck rejects the request. A truthy body id
selects the update path: findById, 404 when absent, a name-or-url collision
check excluding the current id, then save (pre-save hook refreshes
updatedAt). Otherwise the create path rejects when any form collides on name
or url and saves a new document. Save failures (required trimmed paths,
unique indexes) surface as 500. -/
def formsPostCore (b : FormBody) (freshId : String) (now : Nat)
    (db : DB) : DB × FormsPostRes :=
  let name := b.name.getD ""
  let url := b.url.getD ""
  if truthy b.id then
    let bid := b.id.getD ""
    if !isValidObjectId bid then (db, .serverError)
    else
      match findDocById db.forms (fun f => f.id) bid with
      | none => (db, .notFound)
      | some f0 =>
        if db.forms.any (fun f => f.id != bid && (f.name == name || f.url == url)) then
          (db, .duplicate)
        else
          let f1 : Form := { f0 with name := trimStr name, url := trimStr url, updatedAt := now }
          if formSchemaValid f1
              && !(db.forms.any (fun f => f.id != bid && (f.name == f1.name || f.url == f1.url))) then
            (replaceForm db f1, .saved f1)
          else (db, .serverError)
  else
    if db.forms.any (fun f => f.name == name || f.url == url) then (db, .duplicate)
    else
      let f : Form :=
        { id := freshId, name := trimStr name, url := trimStr url
        , createdAt := now, updatedAt := now }
      if formSchemaValid f
          && !(db.forms.any (fun g => g.name == f.name || g.url == f.url)) then
        ({ db with forms := db.forms ++ [f] }, .saved f)
      else (db, .serverError)

/-- Result of DELETE forms. -/
inductive FormsDeleteRes where
  | notFound
  | removed
  | serverError
deriving Repr, DecidableEq

/-- Status codes of DELETE forms (forms.js lines 87-101). -/
def FormsDeleteRes.statusCode : FormsDeleteRes → Nat
  | .notFound => 404
  | .removed => 200
  | .serverError => 500

/-- DELETE forms handler (forms.js lines 87-101): findById (a malformed id
throws a CastError mapped to 500, the catch has no ObjectId case); 404 when
absent; otherwise findByIdAndDelete. -/
def deleteFormCore (id : String) (db : DB) : DB × FormsDeleteRes :=
  if !isValidObjectId id then (db, .serverError)
  else
    match findDocById db.forms (fun f => f.id) id with
    | none => (db, .notFound)
    | some _ =>
      ({ db with forms := db.forms.filter (fun f => f.id != id) }, .removed)

/-! ## Customer Directory (src/unnamed/part_000 lines 1-228)

The Customer model file is not among the sources, so save-time validation is
modelled from the spec (section 4.4): a per-field validation failure map for
missing constraint fields and a duplicate-key rejection on a unique contact
field (modelled on email). -/

/-- Request body for customer create and update (address flattened into its
three searched subfields). -/
structure CustomerBody where
  name : Option String
  phone : Option String
  email : Option String
  addressLine1 : Option String
  addressCity : Option String
  addressState : Option String
  serviceCategoryUrl : Option String
deriving Repr

/-- Modelled from the spec: validateSync of the Customer document requires
the contact fields name, phone and email; serviceCategoryUrl is optional with
no format constraint. -/
def customerValidateSync (c : Customer) : Bool :=
  !c.name.data.isEmpty && !c.phone.data.isEmpty && !c.email.data.isEmpty

/-- Replace the customer with the same id. -/
def replaceCustomer (db : DB) (c : Customer) : DB :=
  { db with customers := db.customers.map (fun x => if x.id == c.id then c else x) }

/-- serviceCategoryUrl normalization of the create handler (part_000 lines
71-79). The outer test is JS truthiness, so a present empty string skips the
whole block and stays in the data; a truthy value is trimmed, deleted when
the trim yields the empty string, and prefixed with "https://" when it does
not start with "http". -/
def normalizeServiceUrlCreate (v : Option String) : Option String :=
  match v with
  | none => none
  | some s =>
    if s.data.isEmpty then some s
    else
      let t := trimStr s
      if t.data.isEmpty then none
      else if strStartsWith t "http" then some t
      else some ("https://" ++ t)

/-- serviceCategoryUrl handling of the update handler (part_000 lines
156-167): a key present with a truthy, non-whitespace value is trimmed and
protocol-prefixed; a key present with an empty or whitespace value is set to
undefined, which mongoose strips from the update, leaving the stored value
untouched; `none` here means the update carries nothing for the field. -/
def normalizeServiceUrlUpdate (v : Option String) : Option String :=
  match v with
  | none => none
  | some s =>
    if !s.data.isEmpty && !(trimStr s).data.isEmpty then
      let t := trimStr s
      if strStartsWith t "http" then some t else some ("https://" ++ t)
    else none

/-- Result of POST customers. -/
inductive CustCreateRes where
  | validationFailed
  | duplicateKey
  | created (c : Customer)
  | serverError
deriving Repr, DecidableEq

/-- Status codes of POST customers (part_000 lines 64-145; creation answers
201). -/
def CustCreateRes.statusCode : CustCreateRes → Nat
  | .validationFailed => 400
  | .duplicateKey => 400
  | .created _ => 201
  | .serverError => 500

/-- POST customers handler (part_000 lines 64-145): the body is spread into
the document data, serviceCategoryUrl is normalized per
`normalizeServiceUrlCreate`, validateSync rejects with a 400 map, a
duplicate-key store error answers 400, otherwise the document is saved and
echoed with 201. -/
def createCustomerCore (b : CustomerBody) (freshId : String) (now : Nat)
    (db : DB) : DB × CustCreateRes :=
  let c : Customer :=
    { id := freshId
    , name := b.name.getD ""
    , phone := b.phone.getD ""
    , email := b.email.getD ""
    , addressLine1 := b.addressLine1.getD ""
    , addressCity := b.addressCity.getD ""
    , addressState := b.addressState.getD ""
    , serviceCategoryUrl := normalizeServiceUrlCreate b.serviceCategoryUrl
    , createdAt := now }
  if !customerValidateSync c then (db, .validationFailed)
  else if db.customers.any (fun d => d.email == c.email) then (db, .duplicateKey)
  else ({ db with customers := db.customers ++ [c] }, .created c)

/-- Result of PUT customers. -/
inductive CustUpdateRes where
  | notFound
  | validationFailed
  | duplicateKey
  | updated (c : Customer)
  | serverError
deriving Repr, DecidableEq

/-- Status codes of PUT customers (part_000 lines 148-212). -/
def CustUpdateRes.statusCode : CustUpdateRes → Nat
  | .notFound => 404
  | .validationFailed => 400
  | .duplicateKey => 400
  | .updated _ => 200
  | .serverError => 500

/-- PUT customers handler (part_000 lines 148-212): findByIdAndUpdate with
runValidators; a malformed id throws a CastError mapped to 500; 404 when
absent; the keys present in the body are applied (serviceCategoryUrl per
`normalizeServiceUrlUpdate`, whose undefined result leaves the stored value),
then validators and the unique contact index run. -/
def updateCustomerCore (id : String) (b : CustomerBody) (_now : Nat)
    (db : DB) : DB × CustUpdateRes :=
  if !isValidObjectId id then (db, .serverError)
  else
    match findDocById db.customers (fun c => c.id) id with
    | none => (db, .notFound)
    | some c0 =>
      let c' : Customer :=
        { c0 with
          name := b.name.getD c0.name,
          phone := b.phone.getD c0.phone,
          email := b.email.getD c0.email,
          addressLine1 := b.addressLine1.getD c0.addressLine1,
          addressCity := b.addressCity.getD c0.addressCity,
          addressState := b.addressState.getD c0.addressState,
          serviceCategoryUrl := (match normalizeServiceUrlUpdate b.serviceCategoryUrl with
            | some u => some u
            | none => c0.serviceCategoryUrl) }
      if !customerValidateSync c' then (db, .validationFailed)
      else if db.customers.any (fun d => d.id != id && d.email == c'.email) then
        (db, .duplicateKey)
      else (replaceCustomer db c', .updated c')

/-- Result of DELETE customers. -/
inductive CustDeleteRes where
  | notFound
  | removed
  | serverError
deriving Repr, DecidableEq

/-- Status codes of DELETE customers (part_000 lines 215-226). -/
def CustDeleteRes.statusCode : CustDeleteRes → Nat
  | .notFound => 404
  | .removed => 200
  | .serverError => 500

/-- DELETE customers handler (part_000 lines 215-226): findByIdAndDelete, a
malformed id throws a CastError mapped to 500, 404 when absent. -/
def deleteCustomerCore (id : String) (db : DB) : DB × CustDeleteRes :=
  if !isValidObjectId id then (db, .serverError)
  else
    match findDocById db.customers (fun c => c.id) id with
    | none => (db, .notFound)
    | some _ =>
      ({ db with customers := db.customers.filter (fun c => c.id != id) }, .removed)

/-- Result of GET customers by id. -/
inductive CustGetRes where
  | notFound
  | found (c : Customer)
  | serverError
deriving Repr, DecidableEq

/-- Status codes of GET customers by id (part_000 lines 19-30; the catch has
no ObjectId case, so a CastError answers 500). -/
def CustGetRes.statusCode : CustGetRes → Nat
  | .notFound => 404
  | .found _ => 200
  | .serverError => 500

/-- GET customers by id handler (part_000 lines 19-30): findById, a malformed
id throws a CastError mapped to 500, 404 when absent. -/
def getCustomerCore (id : String) (db : DB) : DB × CustGetRes :=
  if !isValidObjectId id then (db, .serverError)
  else
    match findDocById db.customers (fun c => c.id) id with
    | none => (db, .notFound)
    | some c => (db, .found c)

/-- Projection produced by `.select("name phone email address")` in the
search query. -/
structure CustomerProj where
  id : String
  name : String
  phone : String
  email : String
  addressLine1 : String
  addressCity : String
  addressState : String
deriving Repr, DecidableEq

/-- Projection of one customer. -/
def projectCustomer (c : Customer) : CustomerProj :=
  { id := c.id, name := c.name, phone := c.phone, email := c.email
  , addressLine1 := c.addressLine1, addressCity := c.addressCity
  , addressState := c.addressState }

/-- One customer matches the search filter (part_000 lines 41-50): the query
string is a case-insensitive substring of name, phone, email or one of the
three address subfields (literal-pattern regex model). -/
def customerMatches (q : String) (c : Customer) : Bool :=
  containsCI c.name q || containsCI c.phone q || containsCI c.email q
  || containsCI c.addressLine1 q || containsCI c.addressCity q
  || containsCI c.addressState q

/-- Result of GET customers search. -/
inductive SearchRes where
  | queryRequired
  | results (l : List CustomerProj)
deriving Repr, DecidableEq

/-- Status codes of GET customers search (part_000 lines 33-61). -/
def SearchRes.statusCode : SearchRes → Nat
  | .queryRequired => 400
  | .results _ => 200

/-- GET customers search handler (part_000 lines 33-61): a missing or empty
query answers 400, otherwise the matching customers are returned, capped at
10 and projected. -/
def searchCustomersCore (q : Option String) (db : DB) : DB × SearchRes :=
  if !truthy q then (db, .queryRequired)
  else
    let s := q.getD ""
    (db, .results (((db.customers.filter (customerMatches s)).take 10).map projectCustomer))

/-! ## Express routing of the customers router (part_000)

Express dispatches a request to the first registered route whose method and
path pattern match, in registration order. The customers router registers
GET "/" (line 8), GET "/:id" (line 19), GET "/search" (line 33), POST "/"
(line 64), PUT "/:id" (line 148) and DELETE "/:id" (line 215), in that
order. -/

/-- HTTP methods used by the routers. -/
inductive Method where
  | get
  | post
  | put
  | delete
deriving Repr, DecidableEq

/-- One segment of a route pattern: a literal or a named parameter. -/
inductive Seg where
  | lit (s : String)
  | param (s : String)
deriving Repr, DecidableEq

/-- Match a pattern against the path segments, producing the captured
parameters. -/
def segMatch : List Seg → List String → Option (List (String × String))
  | [], [] => some []
  | .lit s :: ps, x :: xs => if s == x then segMatch ps xs else none
  | .param n :: ps, x :: xs => (segMatch ps xs).map (fun l => (n, x) :: l)
  | _, _ => none

/-- The customers router table, in registration order (part_000). -/
def customersRouterTable : List (Method × List Seg) :=
  [ (.get, [])
  , (.get, [.param "id"])
  , (.get, [.lit "search"])
  , (.post, [])
  , (.put, [.param "id"])
  , (.delete, [.param "id"])
  ]

/-- First matching route: index into the table plus captured parameters. -/
def dispatchAux (m : Method) (path : List String) :
    List (Method × List Seg) → Nat → Option (Nat × List (String × String))
  | [], _ => none
  | (m', p) :: rest, i =>
    if m' == m then
      match segMatch p path with
      | some ps => some (i, ps)
      | none => dispatchAux m path rest (i + 1)
    else dispatchAux m path rest (i + 1)

/-- Express dispatch over a router table. -/
def dispatchRoute (table : List (Method × List Seg)) (m : Method)
    (path : List String) : Option (Nat × List (String × String)) :=
  dispatchAux m path table 0

/-! ## Message Template Store (src/unnamed/part_000 lines 229-344)

The schema (models/MessageTemplate.js) trims name, subject and content,
constrains type to a three-value enum, and refreshes updatedAt only in a
pre-save hook. The update route uses findByIdAndUpdate, which does not run
the pre-save hook; the schema enables neither the timestamps option nor a
findOneAndUpdate hook, so an update leaves updatedAt at its stored value. -/

/-- Request body for template create and update. -/
structure TemplateBody where
  name : Option String
  subject : Option String
  content : Option String
  ttype : Option String
deriving Repr

/-- Save-time validity of a template document: required trimmed name, subject
and content, and the enum on type. -/
def templateSchemaValid (t : Template) : Bool :=
  !t.name.data.isEmpty && !t.subject.data.isEmpty && !t.content.data.isEmpty
  && templateTypes.contains t.ttype

/-- Replace the template with the same id. -/
def replaceTemplate (db : DB) (t : Template) : DB :=
  { db with templates := db.templates.map (fun x => if x.id == t.id then t else x) }

/-- Result of POST message-templates. -/
inductive TemplCreateRes where
  | missingFields
  | created (t : Template)
  | serverError
deriving Repr, DecidableEq

/-- Status codes of POST message-templates (part_000 lines 246-267; creation
answers 201). -/
def TemplCreateRes.statusCode : TemplCreateRes → Nat
  | .missingFields => 400
  | .created _ => 201
  | .serverError => 500

/-- POST message-templates handler (part_000 lines 246-267): 400 when name,
subject or content is falsy; the type destructuring defaults to "ALERT" only
when the key is absent; save trims, validates (an enum violation surfaces as
500 through the catch) and the pre-save hook stamps updatedAt. -/
def createTemplateCore (b : TemplateBody) (freshId : String) (now : Nat)
    (db : DB) : DB × TemplCreateRes :=
  if !truthy b.name || !truthy b.subject || !truthy b.content then
    (db, .missingFields)
  else
    let doc : Template :=
      { id := freshId
      , name := trimStr (b.name.getD "")
      , subject := trimStr (b.subject.getD "")
      , content := trimStr (b.content.getD "")
      , ttype := b.ttype.getD "ALERT"
      , createdAt := now
      , updatedAt := now }
    if templateSchemaValid doc then
      ({ db with templates := db.templates ++ [doc] }, .created doc)
    else (db, .serverError)

/-- Result of PUT message-templates. -/
inductive TemplUpdateRes where
  | notFound
  | updated (t : Template)
  | serverError
deriving Repr, DecidableEq

/-- Status codes of PUT message-templates (part_000 lines 270-295). -/
def TemplUpdateRes.statusCode : TemplUpdateRes → Nat
  | .notFound => 404
  | .updated _ => 200
  | .serverError => 500

/-- Update data built by the PUT handler (part_000 lines 274-278): each of
the four keys enters updateData only when its body value is truthy, so a key
present with the empty string is dropped exactly like an absent key. -/
def templateUpdateData (b : TemplateBody) : TemplateBody :=
  { name := if truthy b.name then b.name else none
  , subject := if truthy b.subject then b.subject else none
  , content := if truthy b.content then b.content else none
  , ttype := if truthy b.ttype then b.ttype else none }

/-- Required validation of one set string path: fails when the set value is
empty after the trim setter; an absent path is not validated. -/
def setStrFails (x : Option String) : Bool :=
  match x with
  | some v => (trimStr v).data.isEmpty
  | none => false

/-- Enum validation of the set type path: fails when the set value is outside
the three-value enum; an absent path is not validated. -/
def setTypeFails (x : Option String) : Bool :=
  match x with
  | some v => !templateTypes.contains v
  | none => false

/-- Validator outcome of findByIdAndUpdate with runValidators over the
update data. -/
def updValidatorFails (upd : TemplateBody) : Bool :=
  setStrFails upd.name || setStrFails upd.subject || setStrFails upd.content
  || setTypeFails upd.ttype

/-- PUT message-templates handler (part_000 lines 270-295): findByIdAndUpdate
with runValidators over `templateUpdateData`; a malformed id throws a
CastError mapped to 500; 404 when absent. Setters trim the set string paths;
validators check required on the set paths (a value trimming to empty fails)
and the enum on type; a failure surfaces as 500 through the catch. Neither
the pre-save hook nor any timestamps option runs here, so updatedAt keeps its
stored value — the `now` of the request is never written. -/
def updateTemplateCore (id : String) (b : TemplateBody) (_now : Nat)
    (db : DB) : DB × TemplUpdateRes :=
  let upd := templateUpdateData b
  if !isValidObjectId id then (db, .serverError)
  else
    match findDocById db.templates (fun t => t.id) id with
    | none => (db, .notFound)
    | some t0 =>
      let t1 : Template :=
        { t0 with
          name := (upd.name.map trimStr).getD t0.name,
          subject := (upd.subject.map trimStr).getD t0.subject,
          content := (upd.content.map trimStr).getD t0.content,
          ttype := upd.ttype.getD t0.ttype }
      if updValidatorFails upd then (db, .serverError)
      else (replaceTemplate db t1, .updated t1)

/-- Result of DELETE message-templates. -/
inductive TemplDeleteRes where
  | notFound
  | removed
  | serverError
deriving Repr, DecidableEq

/-- Status codes of DELETE message-templates (part_000 lines 298-311). -/
def TemplDeleteRes.statusCode : TemplDeleteRes → Nat
  | .notFound => 404
  | .removed => 200
  | .serverError => 500

/-- DELETE message-templates handler (part_000 lines 298-311):
findByIdAndDelete, a malformed id throws a CastError mapped to 500, 404 when
absent. -/
def deleteTemplateCore (id : String) (db : DB) : DB × TemplDeleteRes :=
  if !isValidObjectId id then (db, .serverError)
  else
    match findDocById db.templates (fun t => t.id) id with
    | none => (db, .notFound)
    | some _ =>
      ({ db with templates := db.templates.filter (fun t => t.id != id) }, .removed)

/-- Result of POST message-templates test send. -/
inductive SendTestRes where
  | notFound
  | echo (subject : String) (content : String)
  | serverError
deriving Repr, DecidableEq

/-- Status codes of POST message-templates test send (part_000 lines
314-342). -/
def SendTestRes.statusCode : SendTestRes → Nat
  | .notFound => 404
  | .echo _ _ => 200
  | .serverError => 500

/-- POST message-templates test send handler (part_000 lines 314-342):
findById (a malformed id throws a CastError mapped to 500); 404 when absent;
otherwise the handler only logs and answers with the subject and content of
the template — no store write of any kind. -/
def sendTestCore (id : String) (db : DB) : DB × SendTestRes :=
  if !isValidObjectId id then (db, .serverError)
  else
    match findDocById db.templates (fun t => t.id) id with
    | none => (db, .notFound)
    | some t => (db, .echo t.subject t.content)

/-! ## Endpoint wiring

The forms, form-categories and form-subcategories routers place `protect`
(aliased `auth`) in front of every route; the customers and message-templates
routers (part_000) attach no middleware at all, so their endpoint functions
receive the request credentials and ignore them, exactly as the source never
reads them. -/

/-- POST forms (protected). -/
def formsPostEndpoint (ctx : AuthCtx) (creds : ReqCreds) (b : FormBody)
    (freshId : String) (now : Nat) (db : DB) : DB × Guarded FormsPostRes :=
  guarded ctx creds db (fun _u => formsPostCore b freshId now db)

/-- DELETE forms (protected). -/
def formsDeleteEndpoint (ctx : AuthCtx) (creds : ReqCreds) (id : String)
    (db : DB) : DB × Guarded FormsDeleteRes :=
  guarded ctx creds db (fun _u => deleteFormCore id db)

/-- POST form-categories (protected). -/
def categoriesPostEndpoint (ctx : AuthCtx) (creds : ReqCreds) (b : CatBody)
    (freshId : String) (now : Nat) (db : DB) : DB × Guarded CatCreateRes :=
  guarded ctx creds db (fun u => createCategoryCore u b freshId now db)

/-- PUT form-categories (protected). -/
def categoriesPutEndpoint (ctx : AuthCtx) (creds : ReqCreds) (id : String)
    (b : CatBody) (now : Nat) (db : DB) : DB × Guarded CatUpdateRes :=
  guarded ctx creds db (fun u => updateCategoryCore u id b now db)

/-- DELETE form-categories (protected). -/
def categoriesDeleteEndpoint (ctx : AuthCtx) (creds : ReqCreds) (id : String)
    (db : DB) : DB × Guarded CatDeleteRes :=
  guarded ctx creds db (fun _u => deleteCategoryCore id db)

/-- POST form-subcategories (protected). -/
def subcategoriesPostEndpoint (ctx : AuthCtx) (creds : ReqCreds)
    (b : SubcatBody) (freshId : String) (now : Nat) (db : DB) :
    DB × Guarded SubcatCreateRes :=
  guarded ctx creds db (fun u => createSubcategoryCore u b freshId now db)

/-- PUT form-subcategories (protected). -/
def subcategoriesPutEndpoint (ctx : AuthCtx) (creds : ReqCreds) (id : String)
    (b : SubcatBody) (now : Nat) (db : DB) : DB × Guarded SubcatUpdateRes :=
  guarded ctx creds db (fun u => updateSubcategoryCore u id b now db)

/-- DELETE form-subcategories (protected). -/
def subcategoriesDeleteEndpoint (ctx : AuthCtx) (creds : ReqCreds)
    (id : String) (db : DB) : DB × Guarded SubcatDeleteRes :=
  guarded ctx creds db (fun _u => deleteSubcategoryCore id db)

/-- POST customers: no middleware (part_000 line 64), the credentials are
never consulted. -/
def customersPostEndpoint (_creds : ReqCreds) (b : CustomerBody)
    (freshId : String) (now : Nat) (db : DB) : DB × CustCreateRes :=
  createCustomerCore b freshId now db

/-- PUT customers: no middleware (part_000 line 148). -/
def customersPutEndpoint (_creds : ReqCreds) (id : String) (b : CustomerBody)
    (now : Nat) (db : DB) : DB × CustUpdateRes :=
  updateCustomerCore id b now db

/-- DELETE customers: no middleware (part_000 line 215). -/
def customersDeleteEndpoint (_creds : ReqCreds) (id : String) (db : DB) :
    DB × CustDeleteRes :=
  deleteCustomerCore id db

/-- POST message-templates: no middleware (part_000 line 246). -/
def templatesPostEndpoint (_creds : ReqCreds) (b : TemplateBody)
    (freshId : String) (now : Nat) (db : DB) : DB × TemplCreateRes :=
  createTemplateCore b freshId now db

/-- PUT message-templates: no middleware (part_000 line 270). -/
def templatesPutEndpoint (_creds : ReqCreds) (id : String) (b : TemplateBody)
    (now : Nat) (db : DB) : DB × TemplUpdateRes :=
  updateTemplateCore id b now db

/-- DELETE message-templates: no middleware (part_000 line 298). -/
def templatesDeleteEndpoint (_creds : ReqCreds) (id : String) (db : DB) :
    DB × TemplDeleteRes :=
  deleteTemplateCore id db

/-- POST message-templates test send: no middleware (part_000 line 314). -/
def templatesSendTestEndpoint (_creds : ReqCreds) (id : String) (db : DB) :
    DB × SendTestRes :=
  sendTestCore id db

/-! ## Reference definitions written from claim wording

These definitions are not translations of the source; each is the wording of
a claim (or of its amended form) made precise, for comparison against the
source-derived handlers above. -/

/-- Acceptance and error selection of the amended create-subcategory
contract, written from the amended claim: category existence, then
(name, categoryId) uniqueness, then the first route-level field violation,
then persistence, which succeeds exactly when the cast document passes the
storage schema and the compound unique index. -/
def createSubcategoryAmendedSpec (u : AuthUser) (b : SubcatBody)
    (freshId : String) (now : Nat) (db : DB) : DB × SubcatCreateRes :=
  let name := b.name.getD ""
  let catId := b.categoryId.getD ""
  if !(db.categories.any (fun c => c.id == catId)) then (db, .categoryNotFound)
  else if db.subcategories.any (fun s => s.name == name && s.categoryId == catId) then
    (db, .duplicateName)
  else
    match firstFieldError (b.fields.getD []) with
    | some e => (db, .fieldInvalid e)
    | none =>
      let doc := mkSubcatDoc u b freshId now
      if subcatSchemaValid doc
          && !(db.subcategories.any (fun t => t.name == doc.name && t.categoryId == doc.categoryId)) then
        ({ db with subcategories := db.subcategories ++ [doc] }, .created doc)
      else (db, .serverError)

/-- Template produced by a partial update, written from the amended claim:
each of the four updatable paths takes the trimmed request value when the
request provides a truthy one and keeps the stored value otherwise, and every
other path — updatedAt included — keeps its stored value. -/
def applyTemplateUpdate (t0 : Template) (b : TemplateBody) : Template :=
  { t0 with
    name := if truthy b.name then trimStr (b.name.getD "") else t0.name,
    subject := if truthy b.subject then trimStr (b.subject.getD "") else t0.subject,
    content := if truthy b.content then trimStr (b.content.getD "") else t0.content,
    ttype := if truthy b.ttype then b.ttype.getD "" else t0.ttype }

/-- Validity of a template partial update, written declaratively: every
truthy provided field must survive its validator (set string paths must not
trim to empty, a provided type must be in the enum). -/
def templateUpdateValid (b : TemplateBody) : Bool :=
  (!truthy b.name || !(trimStr (b.name.getD "")).data.isEmpty)
  && (!truthy b.subject || !(trimStr (b.subject.getD "")).data.isEmpty)
  && (!truthy b.content || !(trimStr (b.content.getD "")).data.isEmpty)
  && (!truthy b.ttype || templateTypes.contains (b.ttype.getD ""))

/-! ## Concrete fixtures used by counterexamples and witnesses -/

/-- Well-formed ObjectId of the fixture category. -/
def oidA : String := "aaaaaaaaaaaaaaaaaaaaaaaa"

/-- Well-formed ObjectId of the fixture subcategory. -/
def oidS : String := "bbbbbbbbbbbbbbbbbbbbbbbb"

/-- Well-formed ObjectId of the fixture template. -/
def oidT : String := "cccccccccccccccccccccccc"

/-- Well-formed ObjectId of the fixture user. -/
def oidU : String := "dddddddddddddddddddddddd"

/-- Well-formed ObjectId used for created fixture documents. -/
def oidC : String := "eeeeeeeeeeeeeeeeeeeeeeee"

/-- Well-formed ObjectId that resolves in no fixture store. -/
def oidZ : String := "ffffffffffffffffffffffff"

/-- Fixture authenticated user. -/
def user0 : AuthUser := { id := oidU, email := "u@x.y", passwordChangedAt := none }

/-- Authentication context with no users and a verifier that rejects every
token. -/
def ctx0 : AuthCtx := { users := [], verify := fun _ => none }

/-- Request credentials carrying no header and no cookie. -/
def noCreds : ReqCreds := { authorizationHeader := none, cookieToken := none }

/-- Fixture category. -/
def catA : Category :=
  { id := oidA, name := "Cat", description := "", isActive := true
  , createdBy := oidU, updatedBy := none, createdAt := 0, updatedAt := 0 }

/-- Fixture subcategory of `catA`, with no fields. -/
def subS : Subcategory :=
  { id := oidS, name := "Sub", categoryId := oidA, description := ""
  , isActive := true, fields := [], createdBy := oidU, updatedBy := none
  , createdAt := 0, updatedAt := 0 }

/-- Empty document store. -/
def dbEmpty : DB :=
  { categories := [], subcategories := [], forms := [], customers := [], templates := [] }

/-- Store holding only `catA`. -/
def dbCat : DB := { dbEmpty with categories := [catA] }

/-- Store holding `catA` and its subcategory `subS`. -/
def dbCatSub : DB := { dbCat with subcategories := [subS] }

/-- Fixture template, last written at time 5. -/
def tmplOld : Template :=
  { id := oidT, name := "T1", subject := "old", content := "body"
  , ttype := "ALERT", createdAt := 1, updatedAt := 5 }

/-- Store holding only `tmplOld`. -/
def dbTmpl : DB := { dbEmpty with templates := [tmplOld] }

/-- Fixture customer whose name matches the query "smith". -/
def smithCust : Customer :=
  { id := oidC, name := "John Smith", phone := "555", email := "js@x.y"
  , addressLine1 := "1 Main", addressCity := "Springfield", addressState := "IL"
  , serviceCategoryUrl := none, createdAt := 3 }

/-- Store holding only `smithCust`. -/
def dbSmith : DB := { dbEmpty with customers := [smithCust] }

/-- Field definition with a truthy name and a fieldType outside the seven
enumerated values. -/
def fBanana : FieldDef :=
  { name := some "x", fieldType := some "banana", options := none, required := false }

/-- Field definition valid for both the route loop and the storage schema. -/
def fAge : FieldDef :=
  { name := some "Age", fieldType := some "number", options := none, required := false }

/-- Field definition rejected by the route loop (empty name). -/
def fNoName : FieldDef :=
  { name := none, fieldType := some "text", options := none, required := false }

/-- Create body for a valid subcategory of `catA` with one valid field. -/
def goodSubcatBody : SubcatBody :=
  { name := some "Taxes", categoryId := some oidA, description := some "forms"
  , fields := some [fAge], isActive := none }

/-- Create body whose name is present but empty while its categoryId is a
well-formed id that resolves nowhere. -/
def emptyNameSubcatBody : SubcatBody :=
  { name := some "", categoryId := some oidZ, description := none
  , fields := some [], isActive := none }

/-- Update body keeping the stored name and category of `subS` but sending
one field with an out-of-enum type. -/
def bananaUpdateBody : SubcatBody :=
  { name := some "Sub", categoryId := some oidA, description := none
  , fields := some [fBanana], isActive := none }

/-- Template update body that sets subject to the empty string. -/
def emptySubjectBody : TemplateBody :=
  { name := none, subject := some "", content := none, ttype := none }

/-- Template update body carrying only a new subject. -/
def subjNewBody : TemplateBody :=
  { name := none, subject := some "new", content := none, ttype := none }

/-- Template written by updating the subject of `tmplOld`: every other path,
updatedAt included, keeps its stored value. -/
def tmplNew : Template := { tmplOld with subject := "new" }

/-- Customer create body with a present, empty serviceCategoryUrl. -/
def urlEmptyBody : CustomerBody :=
  { name := some "Ann", phone := some "1", email := some "a@b.c"
  , addressLine1 := none, addressCity := none, addressState := none
  , serviceCategoryUrl := some "" }

/-- Customer stored by `urlEmptyBody`: the serviceCategoryUrl field is
present and holds the empty string. -/
def annEmptyUrl : Customer :=
  { id := oidC, name := "Ann", phone := "1", email := "a@b.c"
  , addressLine1 := "", addressCity := "", addressState := ""
  , serviceCategoryUrl := some "", createdAt := 7 }

/-- Customer create body with no serviceCategoryUrl key. -/
def annBody : CustomerBody :=
  { name := some "Ann", phone := some "1", email := some "a@b.c"
  , addressLine1 := none, addressCity := none, addressState := none
  , serviceCategoryUrl := none }

/-- Subcategory stored after `bananaUpdateBody` is applied to `subS` at time
9: the out-of-enum field is persisted. -/
def subSBanana : Subcategory :=
  { subS with
    fields := [{ name := some "x", fieldType := some "banana", options := [], required := false }],
    updatedBy := some oidU,
    updatedAt := 9 }

/-- Customer stored by `annBody` at time 7 (no serviceCategoryUrl sent). -/
def annStored : Customer :=
  { id := oidC, name := "Ann", phone := "1", email := "a@b.c"
  , addressLine1 := "", addressCity := "", addressState := ""
  , serviceCategoryUrl := none, createdAt := 7 }

/-- Template update body with a padded name and a valid new type. -/
def nameUpdBody : TemplateBody :=
  { name := some " N2 ", subject := none, content := none, ttype := some "PROMOTIONAL" }

/-- Store after creating the subcategory of `goodSubcatBody` in `dbCat` at
time 4. -/
def dbCatAfter : DB := { dbCat with subcategories := [mkSubcatDoc user0 goodSubcatBody oidS 4] }

/-! ## Library lemmas about the embedding -/

/-- Absence through find? coincides with a false existence test, connecting
the findById lookups of the handlers to the declarative any-queries of the
claim-side definitions. -/
theorem findDocById_none (l : List α) (g : α → String) (id : String) :
    findDocById l g id = none ↔ l.any (fun x => g x == id) = false := by
  simp [findDocById, List.find?_eq_none, List.any_eq_true]

/-- A successful find? witnesses a true existence test. -/
theorem findDocById_any (l : List α) (g : α → String) (id : String) (a : α)
    (h : findDocById l g id = some a) :
    l.any (fun x => g x == id) = true := by
  have hm := List.mem_of_find?_eq_some h
  have hp := List.find?_some h
  simp [List.any_eq_true]
  exact ⟨a, hm, by simpa using hp⟩

/-- Declarative reading of one route-level field check. -/
theorem validateField_none_iff (f : FieldDef) :
    validateField f = none ↔
      (truthy f.name = true ∧ truthy f.fieldType = true ∧
        (choiceTypes.contains (f.fieldType.getD "") = true → f.options.getD [] ≠ [])) := by
  unfold validateField
  cases hn : truthy f.name with
  | false => simp [hn]
  | true =>
    cases ht : truthy f.fieldType with
    | false => simp [hn, ht]
    | true =>
      cases hc : choiceTypes.contains (f.fieldType.getD "") with
      | false => simp [hn, ht, hc]
      | true =>
        cases ho : f.options with
        | none => simp [hn, ht, hc, ho]
        | some l =>
          cases l with
          | nil => simp [hn, ht, hc, ho]
          | cons x xs => simp [hn, ht, hc, ho]

/-- The loop accepts exactly when every field passes its check. -/
theorem firstFieldError_none_iff (fs : List FieldDef) :
    firstFieldError fs = none ↔ ∀ f ∈ fs, validateField f = none := by
  induction fs with
  | nil => simp [firstFieldError]
  | cons f fs ih =>
    cases hv : validateField f with
    | none => simp [firstFieldError, hv, ih]
    | some e => simp [firstFieldError, hv]

/-- The loop reports the violation of the first failing field. -/
theorem firstFieldError_append (xs : List FieldDef) (f : FieldDef) (ys : List FieldDef)
    (hxs : ∀ x ∈ xs, validateField x = none) (hf : validateField f ≠ none) :
    firstFieldError (xs ++ f :: ys) = validateField f := by
  induction xs with
  | nil =>
    cases hv : validateField f with
    | none => exact absurd hv hf
    | some e => simp [firstFieldError, hv]
  | cons x xs ih =>
    have hx := hxs x (by simp)
    simpa [firstFieldError, hx] using ih (fun y hy => hxs y (by simp [hy]))

/-- Required check over a truthiness-filtered string path, in closed form. -/
theorem setStrFails_data (x : Option String) :
    setStrFails (if truthy x then x else none)
      = (truthy x && (trimStr (x.getD "")).data.isEmpty) := by
  cases x with
  | none => simp [truthy, setStrFails]
  | some v => by_cases hv : v.data.isEmpty <;> simp [truthy, setStrFails, hv]

/-- Enum check over a truthiness-filtered type path, in closed form. -/
theorem setTypeFails_data (x : Option String) :
    setTypeFails (if truthy x then x else none)
      = (truthy x && !templateTypes.contains (x.getD "")) := by
  cases x with
  | none => simp [truthy, setTypeFails]
  | some v => by_cases hv : v.data.isEmpty <;> simp [truthy, setTypeFails, hv]

/-- The validator over the truthiness-filtered update data fails exactly when
the declarative update validity fails. -/
theorem updValidatorFails_eq (b : TemplateBody) :
    updValidatorFails (templateUpdateData b) = !templateUpdateValid b := by
  unfold updValidatorFails templateUpdateData templateUpdateValid
  simp only [setStrFails_data, setTypeFails_data]
  cases truthy b.name <;> cases truthy b.subject <;> cases truthy b.content <;>
    cases truthy b.ttype <;> simp

/-- Applied value of a string path of the template update, in closed form. -/
theorem applyStrPath_eq (x : Option String) (d : String) :
    ((if truthy x then x else none).map trimStr).getD d
      = if truthy x then trimStr (x.getD "") else d := by
  cases x with
  | none => simp [truthy]
  | some v => by_cases hv : v.data.isEmpty <;> simp [truthy, hv]

/-- Applied value of the type path of the template update, in closed form. -/
theorem applyTypePath_eq (x : Option String) (d : String) :
    (if truthy x then x else none).getD d = if truthy x then x.getD "" else d := by
  cases x with
  | none => simp [truthy]
  | some v => by_cases hv : v.data.isEmpty <;> simp [truthy, hv]

/-- Saving a subcategory succeeds only on schema-valid documents. -/
theorem saveSubcategory_ok_valid (db : DB) (s : Subcategory) (db' : DB)
    (h : saveSubcategory db s = .ok db') : subcatSchemaValid s = true := by
  unfold saveSubcategory at h
  by_cases hv : subcatSchemaValid s
  · exact hv
  · simp [hv] at h

/-- A created response of the create-subcategory handler comes from a
successful save of the document it builds. -/
theorem createSubcategoryCore_created (u : AuthUser) (b : SubcatBody)
    (freshId : String) (now : Nat) (db db' : DB) (s : Subcategory)
    (h : createSubcategoryCore u b freshId now db = (db', .created s)) :
    s = mkSubcatDoc u b freshId now
    ∧ saveSubcategory db (mkSubcatDoc u b freshId now) = .ok db' := by
  unfold createSubcategoryCore at h
  by_cases h1 : subcatPrecheckOk b = true
  case neg => simp [h1] at h
  case pos =>
  simp only [h1, Bool.not_true, Bool.false_eq_true, if_false] at h
  by_cases h2 : isValidObjectId (b.categoryId.getD "") = true
  case neg =>
    rw [Bool.not_eq_true] at h2
    simp [h2] at h
  case pos =>
  simp only [h2, Bool.not_true, Bool.false_eq_true, if_false] at h
  cases hfind : findDocById db.categories (fun c => c.id) (b.categoryId.getD "") with
  | none => simp [hfind] at h
  | some c =>
    simp only [hfind] at h
    cases hdup : db.subcategories.any
        (fun s => s.name == b.name.getD "" && s.categoryId == b.categoryId.getD "") with
    | true => simp [hdup] at h
    | false =>
      simp only [hdup, Bool.false_eq_true, if_false] at h
      cases hffe : firstFieldError (b.fields.getD []) with
      | some e => simp [hffe] at h
      | none =>
        simp only [hffe] at h
        cases hsave : saveSubcategory db (mkSubcatDoc u b freshId now) with
        | error e => simp [hsave] at h
        | ok db2 =>
          simp only [hsave, Prod.mk.injEq] at h
          obtain ⟨hdb, hres⟩ := h
          cases hres
          exact ⟨rfl, by rw [hdb]⟩

/-! ## Claims -/

/-- C1: evaluation of deleteCategory at its failing inputs. The claim says an
existing category with no subcategories is removed with a success message and
one with subcategories fails HasDependents with a 400; the handler instead
answers 500 in both situations and never removes anything, because the
form-categories module does not import FormSubCategory and line 505 throws a
ReferenceError. Only the NotFound branch behaves as claimed. -/
theorem c1_deleteCategory_code_bug :
    deleteCategoryCore oidA dbCat = (dbCat, .serverError)
    ∧ CatDeleteRes.statusCode .serverError = 500
    ∧ dbCat.subcategories = []
    ∧ deleteCategoryCore oidA dbCatSub = (dbCatSub, .serverError)
    ∧ deleteCategoryCore oidZ dbCat = (dbCat, .notFound)
    ∧ CatDeleteRes.statusCode .notFound = 404 := by decide

/-- C2 counterexample: a POST to the customers collection carrying no
credential at all is not rejected with 401 — it creates the customer and
answers 201, because the customers router attaches no auth middleware. -/
theorem c2_counterexample :
    customersPostEndpoint noCreds annBody oidC 7 dbEmpty
      = ({ dbEmpty with customers := [annStored] }, .created annStored)
    ∧ CustCreateRes.statusCode (.created annStored) = 201
    ∧ ({ dbEmpty with customers := [annStored] } : DB) ≠ dbEmpty
    ∧ noCreds.authorizationHeader = none ∧ noCreds.cookieToken = none := by decide

/-- C2 amended: mutation endpoints of the forms, form-categories and
form-subcategories routers sit behind the Access Guard — whenever protect
rejects the credential the response is the 401 short-circuit and the store is
untouched — while every customers and message-templates mutation endpoint
ignores the request credentials entirely. -/
theorem c2_amended :
    (∀ ctx creds, protect ctx creds = none →
      (∀ b freshId now db, formsPostEndpoint ctx creds b freshId now db = (db, .unauthorized))
      ∧ (∀ id db, formsDeleteEndpoint ctx creds id db = (db, .unauthorized))
      ∧ (∀ b freshId now db, categoriesPostEndpoint ctx creds b freshId now db = (db, .unauthorized))
      ∧ (∀ id b now db, categoriesPutEndpoint ctx creds id b now db = (db, .unauthorized))
      ∧ (∀ id db, categoriesDeleteEndpoint ctx creds id db = (db, .unauthorized))
      ∧ (∀ b freshId now db, subcategoriesPostEndpoint ctx creds b freshId now db = (db, .unauthorized))
      ∧ (∀ id b now db, subcategoriesPutEndpoint ctx creds id b now db = (db, .unauthorized))
      ∧ (∀ id db, subcategoriesDeleteEndpoint ctx creds id db = (db, .unauthorized)))
    ∧ (∀ c c' b freshId now db, customersPostEndpoint c b freshId now db
        = customersPostEndpoint c' b freshId now db)
    ∧ (∀ c c' id b now db, customersPutEndpoint c id b now db
        = customersPutEndpoint c' id b now db)
    ∧ (∀ c c' id db, customersDeleteEndpoint c id db = customersDeleteEndpoint c' id db)
    ∧ (∀ c c' b freshId now db, templatesPostEndpoint c b freshId now db
        = templatesPostEndpoint c' b freshId now db)
    ∧ (∀ c c' id b now db, templatesPutEndpoint c id b now db
        = templatesPutEndpoint c' id b now db)
    ∧ (∀ c c' id db, templatesDeleteEndpoint c id db = templatesDeleteEndpoint c' id db)
    ∧ (∀ c c' id db, templatesSendTestEndpoint c id db = templatesSendTestEndpoint c' id db) := by
  refine ⟨fun ctx creds h => ?_, ?_, ?_, ?_, ?_, ?_, ?_, ?_⟩
  · refine ⟨?_, ?_, ?_, ?_, ?_, ?_, ?_, ?_⟩ <;> intros <;>
      simp [formsPostEndpoint, formsDeleteEndpoint, categoriesPostEndpoint,
        categoriesPutEndpoint, categoriesDeleteEndpoint, subcategoriesPostEndpoint,
        subcategoriesPutEndpoint, subcategoriesDeleteEndpoint, guarded, h]
  all_goals intros; rfl

/-- C2 amended, witness: the guarded delete-form endpoint rejects the empty
credentials against a verifier that accepts nothing, with a 401 status, and
the customers create endpoint answers identically with and without a bearer
header. -/
theorem c2_amended_witness :
    formsDeleteEndpoint ctx0 noCreds oidZ dbEmpty = (dbEmpty, .unauthorized)
    ∧ Guarded.status FormsDeleteRes.statusCode (Guarded.unauthorized) = 401
    ∧ customersPostEndpoint noCreds annBody oidC 7 dbEmpty
        = customersPostEndpoint { authorizationHeader := some "Bearer zzz", cookieToken := none }
            annBody oidC 7 dbEmpty :=
  ⟨(c2_amended.1 ctx0 noCreds rfl).2.1 oidZ dbEmpty, rfl,
   c2_amended.2.1 noCreds { authorizationHeader := some "Bearer zzz", cookieToken := none }
     annBody oidC 7 dbEmpty⟩

/-- C3: evaluation at the failing input. The customers router registers
GET "/:id" before GET "/search", so a GET of path "/search" dispatches to the
get-by-id route (table index 1) with id = "search"; that handler fails the
ObjectId cast and answers 500. The search handler itself — which on query
"smith" would answer the projected matches and on an empty query the 400 —
is unreachable for every request. -/
theorem c3_search_shadowed_code_bug :
    dispatchRoute customersRouterTable .get ["search"] = some (1, [("id", "search")])
    ∧ customersRouterTable.get? 1 = some (.get, [.param "id"])
    ∧ getCustomerCore "search" dbSmith = (dbSmith, .serverError)
    ∧ CustGetRes.statusCode .serverError = 500
    ∧ searchCustomersCore (some "smith") dbSmith = (dbSmith, .results [projectCustomer smithCust])
    ∧ searchCustomersCore (some "") dbSmith = (dbSmith, .queryRequired) := by decide

/-- C4 counterexample: the route-level loop accepts a field whose fieldType
"banana" is outside the seven enumerated values, which the claim requires it
to reject; the claim-worded acceptance predicate indeed rejects the field. -/
theorem c4_counterexample :
    firstFieldError [fBanana] = none ∧ validateField fBanana = none
    ∧ specFieldOk fBanana = false
    ∧ enumFieldTypes.contains "banana" = false := by decide

/-- C4 amended: the route-level Field Schema Validator accepts exactly when
every field has a truthy (present, non-empty, untrimmed) name and a truthy
fieldType, with a non-empty options sequence when the fieldType is a choice
type; membership of fieldType in the seven enumerated values and whitespace
trimming are not checked here. Otherwise it reports the violation of the
first failing field in input order. -/
theorem c4_amended :
    (∀ fs : List FieldDef, firstFieldError fs = none ↔
      ∀ f ∈ fs, truthy f.name = true ∧ truthy f.fieldType = true ∧
        (choiceTypes.contains (f.fieldType.getD "") = true → f.options.getD [] ≠ []))
    ∧ (∀ xs (f : FieldDef) ys, (∀ x ∈ xs, validateField x = none) →
        validateField f ≠ none → firstFieldError (xs ++ f :: ys) = validateField f) := by
  constructor
  · intro fs
    rw [firstFieldError_none_iff]
    exact ⟨fun h f hf => (validateField_none_iff f).mp (h f hf),
           fun h f hf => (validateField_none_iff f).mpr (h f hf)⟩
  · exact firstFieldError_append

/-- C4 amended, witness: a concrete accepted list and a concrete list whose
first violation is reported. -/
theorem c4_amended_witness :
    (∀ f ∈ [fAge], truthy f.name = true ∧ truthy f.fieldType = true ∧
      (choiceTypes.contains (f.fieldType.getD "") = true → f.options.getD [] ≠ []))
    ∧ firstFieldError [fAge, fNoName, fBanana] = validateField fNoName :=
  ⟨(c4_amended.1 [fAge]).mp (by decide),
   c4_amended.2 [fAge] fNoName [fBanana] (by decide) (by decide)⟩

/-- C5 counterexample: a template update whose body carries subject set to
the empty string leaves the stored subject untouched — the field is present
in the request but is dropped by the truthiness filter, so "set to empty
string" behaves exactly like "not provided", against the claim. -/
theorem c5_counterexample :
    emptySubjectBody.subject = some ""
    ∧ updateTemplateCore oidT emptySubjectBody 100 dbTmpl = (dbTmpl, .updated tmplOld)
    ∧ tmplOld.subject = "old" := by decide

/-- C5 amended: the template update applies exactly the truthy provided
fields (trimmed by the setters); fields that are absent or set to a falsy
value such as the empty string keep their stored values, so "set to empty
string" is treated the same as "not provided"; the update fails NotFound
(404) when a well-formed id resolves to no template; and a provided field
that violates its validator (a value trimming to empty, or a type outside
the enum) makes the update fail with a 500. -/
theorem c5_amended (db : DB) (id : String) (b : TemplateBody) (now : Nat)
    (hid : isValidObjectId id = true) :
    (findDocById db.templates (fun t => t.id) id = none →
      updateTemplateCore id b now db = (db, .notFound)
      ∧ TemplUpdateRes.statusCode .notFound = 404)
    ∧ (∀ t0, findDocById db.templates (fun t => t.id) id = some t0 →
        (templateUpdateValid b = true →
          updateTemplateCore id b now db
            = (replaceTemplate db (applyTemplateUpdate t0 b),
               .updated (applyTemplateUpdate t0 b)))
        ∧ (templateUpdateValid b = false →
          updateTemplateCore id b now db = (db, .serverError))) := by
  constructor
  · intro h
    simp [updateTemplateCore, hid, h, TemplUpdateRes.statusCode]
  · intro t0 h
    have hu := updValidatorFails_eq b
    constructor
    · intro hv
      rw [hv] at hu
      simp only [updateTemplateCore, hid, h, hu, Bool.not_true, if_false,
        Bool.not_false, if_true]
      simp [applyTemplateUpdate, templateUpdateData, applyStrPath_eq, applyTypePath_eq]
    · intro hv
      rw [hv] at hu
      simp [updateTemplateCore, hid, h, hu]

/-- C5 amended, witness: a concrete partial update applying a padded name and
a new type to the fixture template. -/
theorem c5_amended_witness :
    updateTemplateCore oidT nameUpdBody 77 dbTmpl
      = (replaceTemplate dbTmpl (applyTemplateUpdate tmplOld nameUpdBody),
         .updated (applyTemplateUpdate tmplOld nameUpdBody)) :=
  ((c5_amended dbTmpl oidT nameUpdBody 77 (by decide)).2 tmplOld (by decide)).1 (by decide)

/-- C6: evaluation at the failing input. A partial message-template update
with only a new subject, performed at time 100, leaves name and content
unchanged as claimed, but also leaves updatedAt at its stored value 5 instead
of refreshing it: the route uses findByIdAndUpdate, which does not run the
pre-save hook of the schema, and the schema has neither a findOneAndUpdate
hook (the Form schema has one for exactly this) nor the timestamps option. -/
theorem c6_updatedAt_code_bug :
    updateTemplateCore oidT subjNewBody 100 dbTmpl
      = ({ dbEmpty with templates := [tmplNew] }, .updated tmplNew)
    ∧ tmplNew.name = tmplOld.name
    ∧ tmplNew.content = tmplOld.content
    ∧ tmplNew.subject = "new"
    ∧ tmplNew.updatedAt = tmplOld.updatedAt
    ∧ tmplNew.updatedAt ≠ 100 := by decide

/-- C7: evaluation at the failing input. A customer created with
serviceCategoryUrl present as the empty string keeps the field, holding the
empty string, in the stored record — the claim requires the field to be
absent — because the truthiness guard skips the whole normalization block
for a falsy value. The neighbouring behaviours match the claim: a
whitespace-only value is removed, a bare domain is prefixed with https, and
an http value is stored as given. -/
theorem c7_empty_url_code_bug :
    createCustomerCore urlEmptyBody oidC 7 dbEmpty
      = ({ dbEmpty with customers := [annEmptyUrl] }, .created annEmptyUrl)
    ∧ annEmptyUrl.serviceCategoryUrl = some ""
    ∧ normalizeServiceUrlCreate (some " ") = none
    ∧ normalizeServiceUrlCreate (some "example.com") = some "https://example.com"
    ∧ normalizeServiceUrlCreate (some "http://e.com") = some "http://e.com" := by decide

/-- C8 counterexample: a create request whose name is present but empty and
whose categoryId is a well-formed id resolving nowhere is answered by the
express-validator precheck with a 400, not by the CategoryNotFound the claim
puts first. -/
theorem c8_counterexample :
    createSubcategoryCore user0 emptyNameSubcatBody oidS 0 dbEmpty = (dbEmpty, .precheckFailed)
    ∧ SubcatCreateRes.statusCode .precheckFailed = 400
    ∧ dbEmpty.categories.any (fun c => c.id == oidZ) = false
    ∧ (SubcatCreateRes.precheckFailed ≠ SubcatCreateRes.categoryNotFound) := by decide

/-- C8 amended: once a request passes the route prechecks (truthy name,
truthy categoryId, fields present as an array) and its categoryId is a
well-formed ObjectId, the create-subcategory handler behaves exactly as the
claim-worded chain: CategoryNotFound when no category carries the id, else
DuplicateName exactly when a subcategory with the same raw (name, categoryId)
pair exists, else the first route-level field violation, else persistence
with createdBy set to the caller, which succeeds exactly when the cast
document passes the storage schema and the compound unique index and
otherwise yields a 500. -/
theorem c8_amended (u : AuthUser) (b : SubcatBody) (freshId : String) (now : Nat)
    (db : DB) (hpre : subcatPrecheckOk b = true)
    (hcat : isValidObjectId (b.categoryId.getD "") = true) :
    createSubcategoryCore u b freshId now db
      = createSubcategoryAmendedSpec u b freshId now db := by
  unfold createSubcategoryCore createSubcategoryAmendedSpec
  simp only [hpre, hcat, Bool.not_true, Bool.false_eq_true, if_false]
  cases hfind : findDocById db.categories (fun c => c.id) (b.categoryId.getD "") with
  | none =>
    have hany := (findDocById_none db.categories (fun c => c.id) (b.categoryId.getD "")).mp hfind
    simp [hfind, hany]
  | some c =>
    have hany := findDocById_any db.categories (fun c => c.id) (b.categoryId.getD "") c hfind
    simp only [hfind, hany, Bool.not_true, Bool.false_eq_true, if_false]
    cases hdup : db.subcategories.any
        (fun s => s.name == b.name.getD "" && s.categoryId == b.categoryId.getD "") with
    | true => simp [hdup]
    | false =>
      simp only [hdup, Bool.false_eq_true, if_false]
      cases hffe : firstFieldError (b.fields.getD []) with
      | some e => simp [hffe]
      | none =>
        simp only [hffe]
        unfold saveSubcategory
        cases hv : subcatSchemaValid (mkSubcatDoc u b freshId now) with
        | false => simp [hv]
        | true =>
          cases hidx : db.subcategories.any
              (fun t => t.name == (mkSubcatDoc u b freshId now).name
                && t.categoryId == (mkSubcatDoc u b freshId now).categoryId) with
          | true => simp [hv, hidx]
          | false => simp [hv, hidx]

/-- C8 amended, witness: the handler and the claim-worded chain agree on a
concrete successful creation. -/
theorem c8_amended_witness :
    createSubcategoryCore user0 goodSubcatBody oidS 4 dbCat
      = createSubcategoryAmendedSpec user0 goodSubcatBody oidS 4 dbCat :=
  c8_amended user0 goodSubcatBody oidS 4 dbCat (by decide) (by decide)

/-- C9: for every well-formed template id, sendTest answers NotFound (404)
when the id resolves to no template and otherwise echoes exactly the subject
and content of the template; in every case the returned store is the input
store — no entity of any collection is modified. -/
theorem c9_sendTest_confirmed (db : DB) (id : String)
    (hid : isValidObjectId id = true) :
    (findDocById db.templates (fun t => t.id) id = none →
      sendTestCore id db = (db, .notFound) ∧ SendTestRes.statusCode .notFound = 404)
    ∧ ∀ t, findDocById db.templates (fun t => t.id) id = some t →
        sendTestCore id db = (db, .echo t.subject t.content)
        ∧ SendTestRes.statusCode (.echo t.subject t.content) = 200 := by
  unfold sendTestCore
  constructor
  · intro h; simp [hid, h, SendTestRes.statusCode]
  · intro t h; simp [hid, h, SendTestRes.statusCode]

/-- C9 witness: the fixture template is echoed and the store is returned
unchanged; an absent id answers 404 with the store unchanged. -/
theorem c9_sendTest_witness :
    (sendTestCore oidT dbTmpl = (dbTmpl, .echo tmplOld.subject tmplOld.content)
      ∧ SendTestRes.statusCode (.echo tmplOld.subject tmplOld.content) = 200)
    ∧ (sendTestCore oidZ dbTmpl = (dbTmpl, .notFound)
      ∧ SendTestRes.statusCode .notFound = 404) :=
  ⟨(c9_sendTest_confirmed dbTmpl oidT (by decide)).2 tmplOld (by decide),
   (c9_sendTest_confirmed dbTmpl oidZ (by decide)).1 (by decide)⟩

/-- C10 counterexample: the update route persists a subcategory whose
embedded field carries the fieldType "banana", outside the seven enumerated
values — findByIdAndUpdate runs without validators, so the storage schema
does not protect the update path and the claimed storage invariant fails. -/
theorem c10_counterexample :
    updateSubcategoryCore user0 oidS bananaUpdateBody 9 dbCatSub
      = ({ dbCat with subcategories := [subSBanana] }, .updated subSBanana)
    ∧ subSBanana.fields.all fieldSchemaValid = false
    ∧ (∃ f ∈ subSBanana.fields, f.fieldType = some "banana")
    ∧ enumFieldTypes.contains "banana" = false := by decide

/-- C10 amended: every FormSubCategory persisted through the create route
satisfies the storage invariant — each embedded field has a present,
non-empty (trimmed) name and a fieldType among the seven enumerated values —
because save-time schema validation guards that path; the update route,
using findByIdAndUpdate without validators, does not enforce it. -/
theorem c10_amended (u : AuthUser) (b : SubcatBody) (freshId : String) (now : Nat)
    (db db' : DB) (s : Subcategory)
    (h : createSubcategoryCore u b freshId now db = (db', .created s)) :
    ∀ f ∈ s.fields,
      (∃ n, f.name = some n ∧ n.data ≠ []) ∧
      (∃ ty, f.fieldType = some ty ∧ ty ∈ enumFieldTypes) := by
  obtain ⟨hs, hsave⟩ := createSubcategoryCore_created u b freshId now db db' s h
  have hvalid := saveSubcategory_ok_valid db (mkSubcatDoc u b freshId now) db' hsave
  unfold subcatSchemaValid at hvalid
  have hfields : (mkSubcatDoc u b freshId now).fields.all fieldSchemaValid = true := by
    simp only [Bool.and_eq_true] at hvalid
    exact hvalid.2
  intro f hf
  rw [hs] at hf
  have hfv : fieldSchemaValid f = true := by
    rw [List.all_eq_true] at hfields
    exact hfields f hf
  unfold fieldSchemaValid at hfv
  simp only [Bool.and_eq_true] at hfv
  obtain ⟨hn, ht⟩ := hfv
  constructor
  · cases hname : f.name with
    | none => rw [hname] at hn; simp at hn
    | some n =>
      rw [hname] at hn
      refine ⟨n, rfl, ?_⟩
      simpa using hn
  · cases htype : f.fieldType with
    | none => rw [htype] at ht; simp at ht
    | some ty =>
      rw [htype] at ht
      refine ⟨ty, rfl, ?_⟩
      simpa using ht

/-- C10 amended, witness: the one field stored by a concrete successful
creation satisfies the invariant. -/
theorem c10_amended_witness :
    (∃ n, (castField fAge).name = some n ∧ n.data ≠ []) ∧
    (∃ ty, (castField fAge).fieldType = some ty ∧ ty ∈ enumFieldTypes) :=
  c10_amended user0 goodSubcatBody oidS 4 dbCat dbCatAfter
    (mkSubcatDoc user0 goodSubcatBody oidS 4) (by decide) (castField fAge) (by decide)

end GanesaEseva
